import Mathlib

/-!
Verification development for the `tagihan-wifi` billing backend.

The definitions below shallowly embed the query-composition core of the
repository (`app/core/pagination.py`), the opaque-identifier codec wrapper
(`app/core/sqids_manager.py`), the role-scoped routers
(`app/routers/tagihan.py`, `app/routers/pelanggan.py`) and the repositories
(`app/repositories/tagihan.py`, `app/repositories/pelanggan.py`).

Conventions of the embedding:
* Python ints are `Int` (ids handed to the sqids library are `Nat`, matching
  the non-negative domain of the library); Python `None` for an optional value is
  `Option.none`.
* SQL text is built exactly as the source builds it, with the whitespace of
  triple-quoted SQL literals normalized to single spaces.
* The database connection is an oracle (`Database`): the embedding records
  every executed statement together with its bound parameters, so that
  "which queries ran, with which SQL text and parameters" is observable.
* The third-party `sqids` library is an external collaborator; it is
  embedded as an abstract codec (`SqidsLib`) together with its documented
  round-trip contract (`LibRoundTrips`), and a small executable instance
  (`unarySqids`) shows the contract is satisfiable.
-/

set_option maxHeartbeats 1000000
set_option maxRecDepth 8000

namespace TagihanWifi

/-- A Python value bound as a SQL parameter: `None`, an int, a string, or a
sequence (the value shape used with `IN`/`NOT IN`). -/
inductive Value where
  | null
  | int (n : Int)
  | str (s : String)
  | seq (vs : List Value)

mutual

/-- Python `repr` of a parameter value, used when a value is interpolated
into a larger string. -/
def Value.pyRepr : Value → String
  | .null => "None"
  | .int n => toString n
  | .str s => String.singleton (Char.ofNat 39) ++ s ++ String.singleton (Char.ofNat 39)
  | .seq vs => "[" ++ String.intercalate (", ") (pyReprList vs) ++ "]"

/-- Python repr of each element of a sequence value. -/
def pyReprList : List Value → List String
  | [] => []
  | v :: vs => Value.pyRepr v :: pyReprList vs

end

/-- Python `str` of a parameter value (what the percent-wrapping format string of the ILIKE branch interpolates). -/
def Value.pyStr : Value → String
  | .str s => s
  | v => v.pyRepr

/-- The `FilterType` predicate object from `app/core/pagination.py`: one WHERE-clause predicate.
`value = none` models a Python `None` value. -/
structure FilterType where
  field : String
  value : Option Value
  operator : String := "="
  condition : String := "AND"

/-- One iteration of the filter loop in `PaginationHandler.get_page`
(`app/core/pagination.py` lines 77-84): a predicate whose value is `None`
is skipped; otherwise the clause `field operator ?` is appended and
the value is bound, wrapped in percent signs when the operator is `ILIKE`. -/
def applyFilter (acc : List String × List Value) (f : FilterType) :
    List String × List Value :=
  match f.value with
  | none => acc
  | some v =>
    (acc.1 ++ [f.field ++ " " ++ f.operator ++ " ?"],
     acc.2 ++ [if f.operator = "ILIKE" then Value.str ("%" ++ v.pyStr ++ "%") else v])

/-- The whole filter loop of `PaginationHandler.get_page`: the rendered
WHERE clauses (in order) and the bound parameter tuple (in the same order). -/
def buildWhere (filters : List FilterType) : List String × List Value :=
  filters.foldl applyFilter ([], [])

/-- Renders `" WHERE " + " AND ".join(where_clauses)` when the clause list is
non-empty, nothing otherwise (`app/core/pagination.py` lines 86-89). -/
def whereText (clauses : List String) : String :=
  if clauses.isEmpty then ("") else (" WHERE ") ++ String.intercalate (" AND ") clauses

/-- Embeds `sort or self.default_sort`: Python falsiness makes both `None` and the
empty string fall back to the handler default. -/
def pySortField (sort : Option String) (dflt : String) : String :=
  match sort with
  | none => dflt
  | some s => if s = "" then dflt else s

/-- Python `str.upper`, character-wise (agrees with `String.toUpper`,
defined structurally so that it evaluates by kernel reduction). -/
def pyUpper (s : String) : String :=
  ⟨s.data.map Char.toUpper⟩

/-- Embeds `direction.upper() if direction else self.default_direction`. -/
def pyDirection (direction : Option String) (dflt : String) : String :=
  match direction with
  | none => dflt
  | some d => if d = "" then dflt else pyUpper d

/-- Embeds `offset = (page - 1) * size if page > 0 else 0`
(`app/core/pagination.py` line 67). -/
def pageOffset (page size : Int) : Int :=
  if 0 < page then (page - 1) * size else 0

/-- Embeds `total_pages = (total + size - 1) // size if size > 0 else 1`
(`app/core/pagination.py` line 115); Python `//` is floor division. -/
def pageTotalPages (total size : Int) : Int :=
  if 0 < size then (total + size - 1).fdiv size else 1

/-- A row as produced by `dict(zip(columns, row))`. -/
def Row : Type := List (String × Value)

/-- One statement handed to `db.execute`: SQL text plus bound parameters. -/
structure ExecutedQuery where
  sql : String
  params : List Value

/-- The storage oracle. `runCount` models `fetchone()[0]` of the count
query (`none` when no row comes back), `runRows` the data-query cursor,
`fetchOne` a single-row `fetchone()` (`none` when no row matches). -/
structure Database where
  runCount : String → List Value → Option Int
  runRows : String → List Value → List Row
  fetchOne : String → List Value → Option Row

/-- The `PaginationResult` page object from `app/core/pagination.py`. -/
structure PaginationResult (α : Type) where
  content : List α
  page : Int
  size : Int
  total_elements : Int
  total_pages : Int
  number_of_elements : Int
  is_last : Bool
  is_first : Bool
  is_empty : Bool

/-- The `PaginationHandler.__init__` state. `model_class` only feeds the default
`map_function`; the repositories under study always pass `map_function`
explicitly, so the mapper is carried directly. -/
structure PaginationHandler (α : Type) where
  base_query : String
  count_query : String
  map_function : Row → α
  default_sort : String := "id"
  default_direction : String := "ASC"

/-- The data-query SQL text exactly as `get_page` assembles it:
base query, optional WHERE, then ORDER BY with the sort field and
direction, then LIMIT size OFFSET offset (`app/core/pagination.py`
lines 70-101).
Note that `sort_field` and `sort_direction` are interpolated into the text. -/
def PaginationHandler.dataQuery (h : PaginationHandler α) (page size : Int)
    (sort direction : Option String) (filters : List FilterType) : String :=
  h.base_query ++ whereText (buildWhere filters).1
    ++ " ORDER BY " ++ pySortField sort h.default_sort
    ++ " " ++ pyDirection direction h.default_direction
    ++ " LIMIT " ++ toString size ++ " OFFSET " ++ toString (pageOffset page size)

/-- Embeds `PaginationHandler.get_page` (`app/core/pagination.py` lines 57-127).
Returns the `PaginationResult` and the trace of executed statements, in
execution order: the count query first, then the data query, both with the
same bound parameter tuple. -/
def PaginationHandler.get_page (h : PaginationHandler α) (db : Database)
    (page size : Int) (sort direction : Option String)
    (filters : List FilterType) :
    PaginationResult α × List ExecutedQuery :=
  let bw := buildWhere filters
  let countQ := h.count_query ++ whereText bw.1
  let total := (db.runCount countQ bw.2).getD 0
  let dataQ := h.dataQuery page size sort direction filters
  let rows := db.runRows dataQ bw.2
  let mapped := if rows.isEmpty then [] else rows.map h.map_function
  let tp := pageTotalPages total size
  (⟨mapped, page, size, total, tp, (mapped.length : Int),
    decide (page ≥ tp), decide (page ≤ 1), decide (mapped.length = 0)⟩,
   [⟨countQ, bw.2⟩, ⟨dataQ, bw.2⟩])

/-- The `Role` enumeration from `app/models/enums.py`. -/
inductive Role where
  | ADMIN
  | USER
deriving DecidableEq

/-- The fields of `UserInDB` (`app/models/user.py`) that the routers under
study read; the remaining fields never influence the modelled behavior. -/
structure UserInDB where
  role : Role
  pelanggan_id : Option Int

/-- Embeds `require_admin` from `app/core/rbac.py`. -/
def require_admin (user : UserInDB) : Except (Nat × String) UserInDB :=
  if user.role ≠ Role.ADMIN then .error (403, "Admin access required")
  else .ok user

/-- The `TagihanRequest` model (`app/models/tagihan.py`): paging fields from
`BasePageRequest` plus the tagihan filters; `tahun` and `bulan` are
required, the other two filters optional. -/
structure TagihanRequest where
  page : Int := 1
  size : Int := 10
  sort : Option String := none
  direction : Option String := none
  tahun : Int
  bulan : Int
  pelanggan_id : Option Int := none
  paket_id : Option Int := none

/-- The `PelangganRequest` model (`app/models/pelanggan.py`): paging fields plus the
optional `nama` and `paket_id` filters used by `PelangganRepository`. -/
structure PelangganRequest where
  page : Int := 1
  size : Int := 10
  sort : Option String := none
  direction : Option String := none
  nama : Option String := none
  paket_id : Option Int := none

/-- The tagihan base select of `TagihanRepository.__init__`, whitespace of
the triple-quoted literal normalized to single spaces. -/
def tagihanBaseSelect : String :=
  "SELECT t.id AS id, t.tahun AS tahun, t.bulan AS bulan, t.pelanggan_id AS pelanggan_id, p.nama AS nama_pelanggan, t.paket_id AS paket_pelanggan, pk.nama AS nama_paket, pk.kecepatan AS kecepatan, pk.harga as harga, t.tanggal_bayar AS tanggal_bayar, t.created_at as created_at, t.updated_at as updated_at FROM tagihan t JOIN pelanggan p ON t.pelanggan_id = p.id JOIN paket pk ON t.paket_id = pk.id"

/-- The tagihan count query of `TagihanRepository.__init__`, whitespace
normalized. -/
def tagihanCountQuery : String :=
  "SELECT COUNT(*) FROM tagihan t JOIN pelanggan p ON t.pelanggan_id = p.id JOIN paket pk ON t.paket_id = pk.id"

/-- Embeds `TagihanModelHelper.map_to_model` (`app/models/tagihan.py`): returns
`None` for a falsy row. The assembly of `TagihanResponse` (per-field
re-encoding of ids through the codec and date formatting) touches no
storage and is abstracted to the row itself. -/
def tagihanMapToModel (row : Row) : Option Row :=
  if row.isEmpty then none else some row

/-- The `PaginationHandler` built in `TagihanRepository.__init__`. -/
def tagihanPaginator : PaginationHandler (Option Row) :=
  { base_query := tagihanBaseSelect
    count_query := tagihanCountQuery
    map_function := tagihanMapToModel
    default_sort := "t.tanggal_bayar"
    default_direction := "DESC" }

namespace TagihanRepository

/-- The keyword-argument filters of `TagihanRepository.get_page`
(`app/repositories/tagihan.py` lines 53-64), in keyword order. -/
def pageFilters (req : TagihanRequest) : List FilterType :=
  [ { field := "t.tahun", value := some (.int req.tahun) },
    { field := "t.bulan", value := some (.int req.bulan) },
    { field := "p.pelanggan_id", value := req.pelanggan_id.map Value.int },
    { field := "p.paket_id", value := req.paket_id.map Value.int } ]

/-- The keyword-argument filters of `TagihanRepository.get_page_by_pelanggan`
(`app/repositories/tagihan.py` lines 66-82), in keyword order: the
`pelanggan_id` keyword is forced to the caller-supplied scope id, with the request field `pelanggan_id` unused. -/
def pageByPelangganFilters (req : TagihanRequest) (pelangganId : Int) :
    List FilterType :=
  [ { field := "t.tahun", value := some (.int req.tahun) },
    { field := "t.bulan", value := some (.int req.bulan) },
    { field := "t.pelanggan_id", value := some (.int pelangganId) },
    { field := "p.paket_id", value := req.paket_id.map Value.int } ]

/-- Embeds `TagihanRepository.get_page`. -/
def get_page (db : Database) (req : TagihanRequest) :
    PaginationResult (Option Row) × List ExecutedQuery :=
  tagihanPaginator.get_page db req.page req.size req.sort req.direction
    (pageFilters req)

/-- Embeds `TagihanRepository.get_page_by_pelanggan`. -/
def get_page_by_pelanggan (db : Database) (req : TagihanRequest)
    (pelangganId : Int) :
    PaginationResult (Option Row) × List ExecutedQuery :=
  tagihanPaginator.get_page db req.page req.size req.sort req.direction
    (pageByPelangganFilters req pelangganId)

/-- The single-row query of `TagihanRepository.fetch_by_id`, whitespace
normalized. -/
def fetchByIdQuery : String :=
  tagihanBaseSelect ++ " WHERE t.id = ?"

/-- The parameter bound for the (possibly failed) decoded id: Python passes
`None` through when `sqids.decode` failed. -/
def idParam : Option Nat → Value
  | none => .null
  | some n => .int (n : Int)

/-- Embeds `TagihanRepository.fetch_by_id` (`app/repositories/tagihan.py` lines
84-111). When no row matches, `cursor.fetchone()` is `None` and
`dict(zip(columns, None))` raises `TypeError`, which the blanket
`except Exception` turns into an HTTP 400 with `str(e)` as detail. -/
def fetch_by_id (id : Option Nat) (db : Database) :
    Except (Nat × String) (Option Row) :=
  match db.fetchOne fetchByIdQuery [idParam id] with
  | none => .error (400, "zip argument #2 must support iteration")
  | some row => .ok (tagihanMapToModel row)

/-- The query of `TagihanRepository.fetch_summary`, whitespace normalized. -/
def fetchSummaryQuery : String :=
  "SELECT * FROM tagihan WHERE tahun = ?"

/-- The query of `TagihanRepository.fetch_summary_by_pelanggan`, whitespace
normalized. -/
def fetchSummaryByPelangganQuery : String :=
  "SELECT * FROM tagihan WHERE tahun = ? AND pelanggan_id = ?"

/-- Embeds `TagihanRepository.fetch_summary`: one storage call; the per-row
response assembly (batch-salted id re-encoding, date formatting) touches no
storage and is abstracted to the raw rows. -/
def fetch_summary (tahun : String) (db : Database) :
    List Row × List ExecutedQuery :=
  (db.runRows fetchSummaryQuery [.str tahun],
   [⟨fetchSummaryQuery, [.str tahun]⟩])

/-- Embeds `TagihanRepository.fetch_summary_by_pelanggan`: as `fetch_summary`, with
the caller `pelanggan_id` bound as the second parameter. -/
def fetch_summary_by_pelanggan (tahun : String) (db : Database)
    (pelangganId : Int) : List Row × List ExecutedQuery :=
  (db.runRows fetchSummaryByPelangganQuery [.str tahun, .int pelangganId],
   [⟨fetchSummaryByPelangganQuery, [.str tahun, .int pelangganId]⟩])

end TagihanRepository

/-- The pelanggan base select of `PelangganRepository.__init__`, whitespace
normalized. -/
def pelangganBaseSelect : String :=
  "SELECT p.*, pk.nama as nama_paket, pk.harga, pk.kecepatan, pk.created_at as paket_created_at, pk.updated_at as paket_updated_at FROM pelanggan p JOIN paket pk ON p.paket_id = pk.id"

/-- The `PaginationHandler` built in `PelangganRepository.__init__`; the
row-to-domain mapper touches no storage and is abstracted to the identity. -/
def pelangganPaginator : PaginationHandler Row :=
  { base_query := pelangganBaseSelect
    count_query := "SELECT COUNT(*) as count FROM pelanggan p"
    map_function := fun r => r
    default_sort := "p.nama"
    default_direction := "ASC" }

namespace PelangganRepository

/-- The keyword-argument filters of `PelangganRepository.get_page`
(`app/repositories/pelanggan.py` lines 38-53), in keyword order. -/
def pageFilters (req : PelangganRequest) : List FilterType :=
  [ { field := "p.nama", value := req.nama.map Value.str, operator := "ILIKE" },
    { field := "p.paket_id", value := req.paket_id.map Value.int, operator := "=" } ]

/-- Embeds `PelangganRepository.get_page`. -/
def get_page (db : Database) (req : PelangganRequest) :
    PaginationResult Row × List ExecutedQuery :=
  pelangganPaginator.get_page db req.page req.size req.sort req.direction
    (pageFilters req)

end PelangganRepository

/-- The interface of the third-party `sqids` library as `SqidsManager` uses
it (`app/core/sqids_manager.py`): canonical encoding of a number sequence
to an opaque string and decoding back. A failed or foreign-input decode is
the empty list (the Python wrapper turns the resulting `IndexError` /
raised exception into `None`). -/
structure SqidsLib where
  encode : List Nat → String
  decode : String → List Nat

/-- The documented contract of the sqids library: decoding a canonical
encoding of a non-empty number sequence returns that sequence. -/
def LibRoundTrips (lib : SqidsLib) : Prop :=
  ∀ ns : List Nat, ns ≠ [] → lib.decode (lib.encode ns) = ns

namespace SqidsManager

/-- Embeds `SqidsManager.encode` (`app/core/sqids_manager.py` lines 29-37). The
per-call randomness (`secrets.randbelow(1_000)`, `secrets.randbelow(10_000)`
and the time-derived component) is passed in explicitly. The Python test
`if not salt` takes the randomized four-number branch both when `salt` is
`None` and when `salt == 0`. -/
def encode (lib : SqidsLib) (number : Nat) (salt : Option Nat)
    (random1 random2 timestampComponent : Nat) : String :=
  match salt with
  | none => lib.encode [number, random1, random2, timestampComponent]
  | some s =>
    if s = 0 then lib.encode [number, random1, random2, timestampComponent]
    else lib.encode [number, s]

/-- Embeds `SqidsManager.decode` (`app/core/sqids_manager.py` lines 39-45): the
first decoded number, or `None` when the library yields nothing (the
`decode_numbers[0]` `IndexError` is caught). -/
def decode (lib : SqidsLib) (encoded : String) : Option Nat :=
  match lib.decode encoded with
  | [] => none
  | n :: _ => some n

end SqidsManager

/-- A concrete executable codec inhabiting the sqids interface: each number
of the sequence is rendered as a `'b'` marker followed by that many `'a'`s. -/
def unaryEncodeL : List Nat → List Char
  | [] => []
  | n :: rest => 'b' :: (List.replicate n 'a' ++ unaryEncodeL rest)

/-- Helper bound used for the termination of `unaryDecodeL`. -/
theorem dropWhile_length_le (p : α → Bool) :
    ∀ l : List α, (l.dropWhile p).length ≤ l.length
  | [] => Nat.le_refl _
  | a :: l => by
    rw [List.dropWhile_cons]
    split
    · exact Nat.le_trans (dropWhile_length_le p l) (Nat.le_succ _)
    · exact Nat.le_refl _

/-- Decoder of the unary codec: at each `'b'` marker, count the following
`'a'`s; other characters are skipped. -/
def unaryDecodeL : List Char → List Nat
  | [] => []
  | c :: cs =>
    if c = 'b' then
      (cs.takeWhile (fun x => x == 'a')).length
        :: unaryDecodeL (cs.dropWhile (fun x => x == 'a'))
    else unaryDecodeL cs
termination_by l => l.length
decreasing_by
  · simp only [List.length_cons]
    exact Nat.lt_succ_of_le (dropWhile_length_le _ cs)
  · simp

/-- The unary codec packaged as a `SqidsLib`. -/
def unarySqids : SqidsLib :=
  ⟨fun ns => ⟨unaryEncodeL ns⟩, fun s => unaryDecodeL s.data⟩

/-- Embeds `get_tagihan` (`app/routers/tagihan.py` lines 23-46). A USER whose
`pelanggan_id` is Python-falsy (`None`, and likewise `0`) is rejected with
403 before the repository is invoked; otherwise the repository runs. The
final router branch `if data is None` (404) is unreachable because
`get_page` always returns a result object. -/
def get_tagihan (user : UserInDB) (req : TagihanRequest) (db : Database) :
    Except (Nat × String) (PaginationResult (Option Row)) × List ExecutedQuery :=
  if user.role = Role.USER then
    match user.pelanggan_id with
    | none => (.error (403, "User not linked to any pelanggan"), [])
    | some pid =>
      if pid = 0 then (.error (403, "User not linked to any pelanggan"), [])
      else
        let r := TagihanRepository.get_page_by_pelanggan db req pid
        (.ok r.1, r.2)
  else
    let r := TagihanRepository.get_page db req
    (.ok r.1, r.2)

/-- Embeds `get_summary` (`app/routers/tagihan.py` lines 101-125): the same
role/scope guard in front of the summary queries. -/
def get_summary (tahun : String) (user : UserInDB) (db : Database) :
    Except (Nat × String) (List Row) × List ExecutedQuery :=
  if user.role = Role.USER then
    match user.pelanggan_id with
    | none => (.error (403, "User not linked to any pelanggan"), [])
    | some pid =>
      if pid = 0 then (.error (403, "User not linked to any pelanggan"), [])
      else
        let r := TagihanRepository.fetch_summary_by_pelanggan tahun db pid
        (.ok r.1, r.2)
  else
    let r := TagihanRepository.fetch_summary tahun db
    (.ok r.1, r.2)

/-- Embeds `get_tagihan_by_id` (`app/routers/tagihan.py` lines 49-61): admin-only;
the opaque id is decoded and handed to `fetch_by_id`, whose HTTP errors
propagate; a `None` mapping result would yield 404. -/
def get_tagihan_by_id (id : String) (user : UserInDB) (db : Database)
    (lib : SqidsLib) : Except (Nat × String) Row :=
  match require_admin user with
  | .error e => .error e
  | .ok _ =>
    match TagihanRepository.fetch_by_id (SqidsManager.decode lib id) db with
    | .error e => .error e
    | .ok none => .error (404, "Tagihan not found")
    | .ok (some d) => .ok d

/-- A request in which the client claims scope `pelanggan_id = 3` while
also filtering on `paket_id = 5`. -/
def reqClaimingScope3 : TagihanRequest :=
  { tahun := 2024, bulan := 1, pelanggan_id := some 3, paket_id := some 5 }

/-- A storage oracle with no rows at all. -/
def dbEmpty : Database :=
  { runCount := fun _ _ => none
    runRows := fun _ _ => []
    fetchOne := fun _ _ => none }

/-- The example absent filter from the spec, a nama predicate with value None. -/
def filterNamaNone : FilterType :=
  { field := "p.nama", value := none, operator := "ILIKE" }

/-- A two-element `IN` predicate (the sequence case of the claim). -/
def filterBulanIn : FilterType :=
  { field := "t.bulan", value := some (.seq [.int 1, .int 2]), operator := "IN" }

/-- A request whose client-supplied sort parameter is an arbitrary SQL
fragment. -/
def reqEvilSort : TagihanRequest :=
  { tahun := 2024, bulan := 1,
    sort := some ("id; DROP TABLE tagihan; --"), direction := some ("asc") }

/-! ### Theorems -/

/-- Every unary encoding is empty or starts with the `'b'` marker. -/
theorem unaryEncodeL_shape (ns : List Nat) :
    unaryEncodeL ns = [] ∨ ∃ u, unaryEncodeL ns = 'b' :: u := by
  cases ns with
  | nil => exact Or.inl rfl
  | cons n rest => exact Or.inr ⟨_, rfl⟩

/-- Lemma: `takeWhile` consumes exactly the block of letter a characters in front of an
encoding tail. -/
theorem takeWhile_replicate_append (n : Nat) (t : List Char)
    (ht : t = [] ∨ ∃ u, t = 'b' :: u) :
    (List.replicate n 'a' ++ t).takeWhile (fun x => x == 'a')
      = List.replicate n 'a' := by
  induction n with
  | zero =>
    rcases ht with rfl | ⟨u, rfl⟩
    · rfl
    · simp [List.takeWhile_cons]
  | succ n ih =>
    simp [List.replicate_succ, List.takeWhile_cons, ih]

/-- Lemma: `dropWhile` drops exactly the block of letter a characters in front of an
encoding tail. -/
theorem dropWhile_replicate_append (n : Nat) (t : List Char)
    (ht : t = [] ∨ ∃ u, t = 'b' :: u) :
    (List.replicate n 'a' ++ t).dropWhile (fun x => x == 'a') = t := by
  induction n with
  | zero =>
    rcases ht with rfl | ⟨u, rfl⟩
    · rfl
    · simp [List.dropWhile_cons]
  | succ n ih =>
    simp [List.replicate_succ, List.dropWhile_cons, ih]

/-- Round trip of the unary codec on character lists. -/
theorem unaryDecodeL_encodeL (ns : List Nat) :
    unaryDecodeL (unaryEncodeL ns) = ns := by
  induction ns with
  | nil => rw [unaryEncodeL, unaryDecodeL]
  | cons n rest ih =>
    rw [unaryEncodeL, unaryDecodeL]
    rw [if_pos rfl,
      takeWhile_replicate_append n _ (unaryEncodeL_shape rest),
      dropWhile_replicate_append n _ (unaryEncodeL_shape rest),
      List.length_replicate, ih]

/-- The unary codec satisfies the sqids round-trip contract. -/
theorem unarySqids_roundTrips : LibRoundTrips unarySqids := by
  intro ns _
  exact unaryDecodeL_encodeL ns

/-- Shared fact: `SqidsManager.decode` recovers the first encoded number,
for any library satisfying the round-trip contract, on every branch of
`SqidsManager.encode`. -/
theorem decode_encode_first (lib : SqidsLib) (h : LibRoundTrips lib)
    (number : Nat) (salt : Option Nat) (r1 r2 ts : Nat) :
    SqidsManager.decode lib (SqidsManager.encode lib number salt r1 r2 ts)
      = some number := by
  cases salt with
  | none =>
    rw [SqidsManager.encode, SqidsManager.decode,
      h [number, r1, r2, ts] (by simp)]
  | some s =>
    by_cases hs : s = 0
    · rw [SqidsManager.encode, if_pos hs, SqidsManager.decode,
        h [number, r1, r2, ts] (by simp)]
    · rw [SqidsManager.encode, if_neg hs, SqidsManager.decode,
        h [number, s] (by simp)]


/-- Floor division by a positive integer of `a + b - 1` is the ceiling of
the rational quotient; this is the arithmetic content of the
`total_pages` formula. -/
theorem ceil_div_int (a b : Int) (hb : 0 < b) :
    ⌈(a : ℚ) / (b : ℚ)⌉ = (a + b - 1) / b := by
  have hbQ : (0 : ℚ) < (b : ℚ) := by exact_mod_cast hb
  set n : Int := (a + b - 1) / b with hn
  have h1 : n * b ≤ a + b - 1 := (Int.le_ediv_iff_mul_le hb).1 (le_refl n)
  have h2 : a + b - 1 < (n + 1) * b := (Int.ediv_lt_iff_lt_mul hb).1 (lt_add_one n)
  have ha1 : a ≤ n * b := by nlinarith
  have ha2 : (n - 1) * b < a := by nlinarith
  rw [Int.ceil_eq_iff]
  constructor
  · rw [lt_div_iff₀ hbQ]
    calc ((n : ℚ) - 1) * b = ((n - 1 : Int) : ℚ) * ((b : Int) : ℚ) := by push_cast; ring
    _ < a := by exact_mod_cast ha2
  · rw [div_le_iff₀ hbQ]
    exact_mod_cast ha1

/-- C7: for every `total_elements ≥ 0` and `size > 0` the computed
`total_pages` equals `ceil(total_elements / size)`, and for every
`size ≤ 0` it equals `1`. -/
theorem total_pages_ceil_spec (total size : Int) :
    (0 ≤ total → 0 < size →
      pageTotalPages total size = ⌈(total : ℚ) / (size : ℚ)⌉)
    ∧ (size ≤ 0 → pageTotalPages total size = 1) := by
  constructor
  · intro _ hs
    rw [pageTotalPages, if_pos hs, Int.fdiv_eq_ediv _ hs.le, ceil_div_int total size hs]
  · intro hs
    rw [pageTotalPages, if_neg (not_lt.2 hs)]

/-- Witness for C7 at `total_elements = 23, size = 10` (the worked example from the spec,
giving 3 pages) and at `size = -1`. -/
theorem total_pages_ceil_spec_witness :
    pageTotalPages 23 10 = ⌈(23 : ℚ) / (10 : ℚ)⌉ ∧ pageTotalPages 23 (-1) = 1 :=
  ⟨(total_pages_ceil_spec 23 10).1 (by decide) (by decide),
   (total_pages_ceil_spec 23 (-1)).2 (by decide)⟩

/-- C4: for every valid id, every salt (including the no-salt form) and
every draw of the per-call randomness, decoding the encoding returns the
original id, for any sqids library satisfying its round-trip contract. -/
theorem decode_encode_roundtrip (lib : SqidsLib) (h : LibRoundTrips lib)
    (id : Nat) (salt : Option Nat) (r1 r2 ts : Nat) :
    SqidsManager.decode lib (SqidsManager.encode lib id salt r1 r2 ts)
      = some id :=
  decode_encode_first lib h id salt r1 r2 ts

/-- Witness for C4: the unary codec satisfies the contract, and a salted
and an unsalted encoding of id 42 both decode back to 42. -/
theorem decode_encode_roundtrip_witness :
    LibRoundTrips unarySqids
    ∧ SqidsManager.decode unarySqids
        (SqidsManager.encode unarySqids 42 none 1 2 3) = some 42
    ∧ SqidsManager.decode unarySqids
        (SqidsManager.encode unarySqids 42 (some 9) 1 2 3) = some 42 :=
  ⟨unarySqids_roundTrips,
   decode_encode_roundtrip unarySqids unarySqids_roundTrips 42 none 1 2 3,
   decode_encode_roundtrip unarySqids unarySqids_roundTrips 42 (some 9) 1 2 3⟩

/-- C5 counterexample: at salt `0` the claim fails. The Python test `if not salt`
treats `salt = 0` as "no salt", so `encode(id, 0)` does not encode
`[id, 0]` and is not deterministic: with randomness `(1, 2, 3)` versus
`(4, 2, 3)` the two calls return different strings. -/
theorem salted_encode_zero_salt_random :
    SqidsManager.encode unarySqids 5 (some 0) 1 2 3 ≠ unarySqids.encode [5, 0]
    ∧ SqidsManager.encode unarySqids 5 (some 0) 1 2 3
        ≠ SqidsManager.encode unarySqids 5 (some 0) 4 2 3 := by
  constructor
  · decide
  · decide

/-- C5 amended: for every id and every nonzero salt, `encode(id, salt)`
encodes exactly the two-number sequence `[id, salt]` and is deterministic
(independent of the per-call randomness); for salt `0`, which is falsy in
Python, the salt is ignored and the randomized no-salt branch runs
instead. -/
theorem salted_encode_deterministic_nonzero (lib : SqidsLib)
    (id s r1 r2 ts r1' r2' ts' : Nat) (hs : s ≠ 0) :
    SqidsManager.encode lib id (some s) r1 r2 ts = lib.encode [id, s]
    ∧ SqidsManager.encode lib id (some s) r1 r2 ts
        = SqidsManager.encode lib id (some s) r1' r2' ts' := by
  rw [SqidsManager.encode, SqidsManager.encode, if_neg hs, if_neg hs]
  exact ⟨rfl, rfl⟩

/-- Witness for C5 amended, at id 7 and salt 3 with two different
randomness draws. -/
theorem salted_encode_deterministic_nonzero_witness :
    SqidsManager.encode unarySqids 7 (some 3) 1 2 3 = unarySqids.encode [7, 3]
    ∧ SqidsManager.encode unarySqids 7 (some 3) 1 2 3
        = SqidsManager.encode unarySqids 7 (some 3) 8 9 10 :=
  salted_encode_deterministic_nonzero unarySqids 7 3 1 2 3 8 9 10 (by decide)

/-- C6: two calls to the no-salt `encode(id)` whose independent randomness
draws differ in any component return different opaque strings, and both
strings decode back to the same id, for any library satisfying the
round-trip contract. -/
theorem unsalted_encode_distinct_decodes_same (lib : SqidsLib)
    (h : LibRoundTrips lib) (id r1 r2 ts r1' r2' ts' : Nat)
    (hne : ¬(r1 = r1' ∧ r2 = r2' ∧ ts = ts')) :
    SqidsManager.encode lib id none r1 r2 ts
        ≠ SqidsManager.encode lib id none r1' r2' ts'
    ∧ SqidsManager.decode lib (SqidsManager.encode lib id none r1 r2 ts)
        = some id
    ∧ SqidsManager.decode lib (SqidsManager.encode lib id none r1' r2' ts')
        = some id := by
  refine ⟨?_, decode_encode_first lib h id none r1 r2 ts,
    decode_encode_first lib h id none r1' r2' ts'⟩
  intro heq
  have hd : lib.decode (SqidsManager.encode lib id none r1 r2 ts)
      = lib.decode (SqidsManager.encode lib id none r1' r2' ts') := by
    rw [heq]
  rw [SqidsManager.encode, SqidsManager.encode,
    h [id, r1, r2, ts] (by simp), h [id, r1', r2', ts'] (by simp)] at hd
  injection hd with h1 hd
  injection hd with h2 hd
  injection hd with h3 hd
  injection hd with h4 hd
  exact hne ⟨h2, h3, h4⟩

/-- Witness for C6: with the unary codec, randomness `(1, 2, 3)` versus
`(1, 2, 4)` for id 5 gives two distinct strings that both decode to 5. -/
theorem unsalted_encode_distinct_decodes_same_witness :
    SqidsManager.encode unarySqids 5 none 1 2 3
        ≠ SqidsManager.encode unarySqids 5 none 1 2 4
    ∧ SqidsManager.decode unarySqids (SqidsManager.encode unarySqids 5 none 1 2 3)
        = some 5
    ∧ SqidsManager.decode unarySqids (SqidsManager.encode unarySqids 5 none 1 2 4)
        = some 5 :=
  unsalted_encode_distinct_decodes_same unarySqids unarySqids_roundTrips
    5 1 2 3 1 2 4 (by decide)

/-- C2: a USER with no scope id (`pelanggan_id` absent) is rejected by both
`get_tagihan` and `get_summary` with the 403 "not linked" outcome, and the
trace of executed storage statements is empty: the rejection happens before
any storage call, for every request and every database. -/
theorem user_without_scope_rejected_before_storage (req : TagihanRequest)
    (tahun : String) (db : Database) :
    get_tagihan ⟨Role.USER, none⟩ req db
        = (.error (403, "User not linked to any pelanggan"), [])
    ∧ get_summary tahun ⟨Role.USER, none⟩ db
        = (.error (403, "User not linked to any pelanggan"), []) :=
  ⟨rfl, rfl⟩

/-- C1 counterexample: for a USER with scope id 7 whose request also
carries a `paket_id` filter, the mandatory scope predicate is rendered
third of four, before the user-supplied `paket_id` predicate — it is not
appended last, contrary to the claim. -/
theorem scope_predicate_not_last :
    (buildWhere (TagihanRepository.pageByPelangganFilters reqClaimingScope3 7)).1
        = ["t.tahun = ?", "t.bulan = ?", "t.pelanggan_id = ?", "p.paket_id = ?"]
    ∧ (buildWhere (TagihanRepository.pageByPelangganFilters reqClaimingScope3 7)).1.getLast?
        ≠ some ("t.pelanggan_id = ?") := by
  exact ⟨rfl, by decide⟩

/-- C1 amended: under role USER the repository replaces the client
`pelanggan_id` filter with the mandatory predicate `t.pelanggan_id = ?`
bound to the scope id of the caller — the whole call is independent of whatever
scope the client claims, the scope predicate is rendered at position 2
(after `tahun` and `bulan`, before a client `paket_id` predicate), and
both executed statements bind that scope id there. -/
theorem scope_filter_overrides_client (db : Database) (req : TagihanRequest)
    (pid : Int) (claimed : Option Int) :
    TagihanRepository.get_page_by_pelanggan db { req with pelanggan_id := claimed } pid
        = TagihanRepository.get_page_by_pelanggan db req pid
    ∧ (buildWhere (TagihanRepository.pageByPelangganFilters req pid)).1[2]?
        = some ("t.pelanggan_id = ?")
    ∧ ((TagihanRepository.get_page_by_pelanggan db req pid).2.map
          (fun q => q.params[2]?))
        = [some (Value.int pid), some (Value.int pid)] := by
  refine ⟨rfl, ?_, ?_⟩
  · cases h : req.paket_id <;>
      simp [TagihanRepository.pageByPelangganFilters, buildWhere, applyFilter, h] <;>
      decide
  · cases h : req.paket_id <;>
      simp [TagihanRepository.get_page_by_pelanggan,
        TagihanRepository.pageByPelangganFilters,
        PaginationHandler.get_page, buildWhere, applyFilter, h] <;>
      decide

/-- A filter whose value is `None` leaves the loop state unchanged. -/
theorem applyFilter_none (acc : List String × List Value) (f : FilterType)
    (hf : f.value = none) : applyFilter acc f = acc := by
  simp [applyFilter, hf]

/-- The filter loop starting from any state ignores a run of filters whose
values are all `None`. -/
theorem foldl_applyFilter_all_none :
    ∀ (fs : List FilterType), (∀ g ∈ fs, g.value = none) →
      ∀ acc, fs.foldl applyFilter acc = acc := by
  intro fs
  induction fs with
  | nil => intro _ _; rfl
  | cons f fs ih =>
    intro hall acc
    rw [List.foldl_cons, applyFilter_none acc f (hall f (List.mem_cons_self f fs))]
    exact ih (fun g hg => hall g (List.mem_cons_of_mem f hg)) acc

/-- C8: a predicate whose value is absent is omitted entirely — dropping it
from the filter list changes neither the rendered clauses nor the bound
parameters — and when every predicate is absent the executed count and
data statements carry no `WHERE` clause and an empty parameter tuple. -/
theorem absent_value_filters_omitted (α : Type) :
    (∀ (xs ys : List FilterType) (f : FilterType), f.value = none →
        buildWhere (xs ++ f :: ys) = buildWhere (xs ++ ys))
    ∧ ∀ (h : PaginationHandler α) (db : Database) (page size : Int)
        (sort direction : Option String) (fs : List FilterType),
        (∀ g ∈ fs, g.value = none) →
        (h.get_page db page size sort direction fs).2.map ExecutedQuery.sql
            = [h.count_query,
               h.base_query ++ " ORDER BY " ++ pySortField sort h.default_sort
                 ++ " " ++ pyDirection direction h.default_direction
                 ++ " LIMIT " ++ toString size
                 ++ " OFFSET " ++ toString (pageOffset page size)]
        ∧ (h.get_page db page size sort direction fs).2.map ExecutedQuery.params
            = [[], []] := by
  constructor
  · intro xs ys f hf
    rw [buildWhere, buildWhere, List.foldl_append, List.foldl_append,
      List.foldl_cons, applyFilter_none _ f hf]
  · intro h db page size sort direction fs hall
    have hbw : buildWhere fs = ([], []) :=
      foldl_applyFilter_all_none fs hall ([], [])
    constructor
    · simp [PaginationHandler.get_page, PaginationHandler.dataQuery, hbw, whereText]
    · simp [PaginationHandler.get_page, hbw]

/-- Witness for C8: with the pelanggan handler and the single absent `nama`
predicate, the executed statements are the bare count query and the base
select with only `ORDER BY p.nama ASC LIMIT 10 OFFSET 0` appended, and no
parameter is bound. -/
theorem absent_value_filters_omitted_witness :
    buildWhere ([] ++ filterNamaNone :: []) = buildWhere ([] ++ [])
    ∧ (pelangganPaginator.get_page dbEmpty 1 10 none none [filterNamaNone]).2.map
          ExecutedQuery.sql
        = ["SELECT COUNT(*) as count FROM pelanggan p",
           pelangganBaseSelect ++ " ORDER BY p.nama ASC LIMIT 10 OFFSET 0"]
    ∧ (pelangganPaginator.get_page dbEmpty 1 10 none none [filterNamaNone]).2.map
          ExecutedQuery.params
        = [[], []] := by
  have w := absent_value_filters_omitted Row
  have hnone : ∀ g ∈ [filterNamaNone], g.value = none := by
    intro g hg
    rw [List.mem_singleton.1 hg]
    rfl
  have w2 := w.2 pelangganPaginator dbEmpty 1 10 none none [filterNamaNone] hnone
  exact ⟨w.1 [] [] filterNamaNone rfl, w2.1, w2.2⟩

/-- C9 counterexample: an `IN` predicate over a two-element sequence is
rendered with a single `?` placeholder binding the entire sequence as one
parameter — not one placeholder per element. -/
theorem in_operator_single_placeholder :
    buildWhere [filterBulanIn]
        = (["t.bulan IN ?"], [Value.seq [Value.int 1, Value.int 2]])
    ∧ ("t.bulan IN ?").toList.count '?' = 1
    ∧ [Value.int 1, Value.int 2].length = 2 := by
  exact ⟨rfl, by decide, rfl⟩

/-- C9 amended: an `ILIKE` predicate binds its value wrapped in percent
signs; an `IN`/`NOT IN` predicate over a sequence renders the single clause
`field operator ?` — one placeholder for the whole sequence, bound as
one parameter, never expanded per element. -/
theorem ilike_wraps_in_single_placeholder (f : FilterType) (v : Value)
    (hv : f.value = some v) :
    (f.operator = "ILIKE" →
      buildWhere [f]
        = ([f.field ++ " ILIKE ?"], [Value.str ("%" ++ v.pyStr ++ "%")]))
    ∧ ∀ vs, (f.operator = "IN" ∨ f.operator = "NOT IN") → v = Value.seq vs →
      buildWhere [f]
        = ([f.field ++ " " ++ f.operator ++ " ?"], [Value.seq vs]) := by
  constructor
  · intro hop
    simp [buildWhere, applyFilter, hv, hop]
    rw [String.append_assoc, String.append_assoc]
    rfl
  · intro vs hop hseq
    rcases hop with hop | hop <;>
      simp [buildWhere, applyFilter, hv, hop, hseq]

/-- Witness for C9 amended: `ILIKE` with value `"abc"` binds `"%abc%"`, and
the `IN` predicate of the counterexample binds its sequence whole. -/
theorem ilike_wraps_in_single_placeholder_witness :
    buildWhere [{ field := "p.nama", value := some (.str ("abc")), operator := "ILIKE" }]
        = (["p.nama" ++ " ILIKE ?"], [Value.str ("%" ++ (Value.str ("abc")).pyStr ++ "%")])
    ∧ buildWhere [filterBulanIn]
        = (["t.bulan" ++ " " ++ "IN" ++ " ?"], [Value.seq [Value.int 1, Value.int 2]]) :=
  ⟨(ilike_wraps_in_single_placeholder _ (.str ("abc")) rfl).1 rfl,
   (ilike_wraps_in_single_placeholder filterBulanIn (.seq [.int 1, .int 2]) rfl).2
     [.int 1, .int 2] (Or.inl rfl) rfl⟩

/-- The rendered clause list depends only on the field,
operator and value-presence of each predicate — never on the value itself, which goes to the
parameter tuple. -/
theorem buildWhere_fst_shape :
    ∀ {fs gs : List FilterType},
      List.Forall₂ (fun f g => f.field = g.field ∧ f.operator = g.operator
        ∧ f.value.isSome = g.value.isSome) fs gs →
      ∀ (cs : List String) (ps qs : List Value),
        (fs.foldl applyFilter (cs, ps)).1 = (gs.foldl applyFilter (cs, qs)).1 := by
  intro fs gs hfg
  induction hfg with
  | nil => intro cs ps qs; rfl
  | cons hfg htail ih =>
    rename_i f g fs' gs'
    intro cs ps qs
    obtain ⟨hfield, hop, hval⟩ := hfg
    rw [List.foldl_cons, List.foldl_cons]
    cases hf : f.value with
    | none =>
      have hg : g.value = none := by
        cases hgv : g.value with
        | none => rfl
        | some b => rw [hf, hgv] at hval; simp at hval
      rw [applyFilter_none _ f hf, applyFilter_none _ g hg]
      exact ih cs ps qs
    | some a =>
      cases hgv : g.value with
      | none => rw [hf, hgv] at hval; simp at hval
      | some b =>
        simp only [applyFilter, hf, hgv, hfield, hop]
        exact ih _ _ _

/-- C3 counterexample: the executed data query interpolates the
client-supplied sort string verbatim after `ORDER BY` — the sort column is
not drawn from any whitelist. With sort `"id; DROP TABLE tagihan; --"` the
second executed statement is the base select with that very fragment as its
ORDER BY target. -/
theorem order_by_renders_client_sort :
    ((TagihanRepository.get_page dbEmpty reqEvilSort).2.map ExecutedQuery.sql)[1]?
      = some (tagihanBaseSelect
          ++ " WHERE t.tahun = ? AND t.bulan = ? ORDER BY id; DROP TABLE tagihan; -- ASC LIMIT 10 OFFSET 0") := by
  decide

/-- C3 amended: every value is bound as a parameter placeholder (the
rendered clause text depends only on field/operator/presence), and the
filter fields and operators are fixed repository constants independent of
the request; but the ORDER BY column and direction are interpolated into
the SQL text directly from the client-supplied sort/direction strings,
with no whitelist. -/
theorem values_parameterized_sort_unchecked (α : Type) :
    (∀ (fs gs : List FilterType),
        List.Forall₂ (fun f g => f.field = g.field ∧ f.operator = g.operator
          ∧ f.value.isSome = g.value.isSome) fs gs →
        (buildWhere fs).1 = (buildWhere gs).1)
    ∧ (∀ (req : TagihanRequest) (pid : Int),
        (TagihanRepository.pageByPelangganFilters req pid).map
            (fun f => (f.field, f.operator))
          = [("t.tahun", "="), ("t.bulan", "="), ("t.pelanggan_id", "="),
             ("p.paket_id", "=")]
        ∧ (TagihanRepository.pageFilters req).map (fun f => (f.field, f.operator))
          = [("t.tahun", "="), ("t.bulan", "="), ("p.pelanggan_id", "="),
             ("p.paket_id", "=")])
    ∧ (∀ (req : PelangganRequest),
        (PelangganRepository.pageFilters req).map (fun f => (f.field, f.operator))
          = [("p.nama", "ILIKE"), ("p.paket_id", "=")])
    ∧ ∀ (h : PaginationHandler α) (page size : Int) (s : String)
        (direction : Option String) (fs : List FilterType), s ≠ "" →
        h.dataQuery page size (some s) direction fs
          = h.base_query ++ whereText (buildWhere fs).1
            ++ " ORDER BY " ++ s ++ " " ++ pyDirection direction h.default_direction
            ++ " LIMIT " ++ toString size
            ++ " OFFSET " ++ toString (pageOffset page size) := by
  refine ⟨fun fs gs hfg => buildWhere_fst_shape hfg [] [] [], ?_, ?_, ?_⟩
  · intro req pid
    exact ⟨rfl, rfl⟩
  · intro req
    rfl
  · intro h page size s direction fs hs
    rw [PaginationHandler.dataQuery, pySortField, if_neg hs]

/-- Witness for C3 amended: two different `nama` values render the same
clause text; the scoped tagihan filters map to their fixed field/operator
pairs; and a concrete malicious sort string lands verbatim in the data
query text. -/
theorem values_parameterized_sort_unchecked_witness :
    (buildWhere [{ field := "p.nama", value := some (.str ("aa")), operator := "ILIKE" }]).1
        = (buildWhere [{ field := "p.nama", value := some (.str ("bb")), operator := "ILIKE" }]).1
    ∧ (TagihanRepository.pageByPelangganFilters reqClaimingScope3 7).map
          (fun f => (f.field, f.operator))
        = [("t.tahun", "="), ("t.bulan", "="), ("t.pelanggan_id", "="),
           ("p.paket_id", "=")]
    ∧ tagihanPaginator.dataQuery 1 10 (some ("id; DROP TABLE tagihan; --")) none []
        = tagihanPaginator.base_query ++ whereText (buildWhere []).1
            ++ " ORDER BY " ++ "id; DROP TABLE tagihan; --"
            ++ " " ++ pyDirection none tagihanPaginator.default_direction
            ++ " LIMIT " ++ toString (10 : Int)
            ++ " OFFSET " ++ toString (pageOffset 1 10) :=
  ⟨(values_parameterized_sort_unchecked (Option Row)).1 _ _
      (List.Forall₂.cons ⟨rfl, rfl, rfl⟩ List.Forall₂.nil),
   ((values_parameterized_sort_unchecked (Option Row)).2.1 reqClaimingScope3 7).1,
   (values_parameterized_sort_unchecked (Option Row)).2.2.2 tagihanPaginator 1 10
     ("id; DROP TABLE tagihan; --") none [] (by decide)⟩

/-- C10, evaluated at the failing input: an admin request for
`/tagihan/` by opaque id with a well-formed id (here the encoding of 77)
whose decoded id matches no row is answered with the HTTP 400 raised by
the blanket exception handler in `fetch_by_id` — `cursor.fetchone()` is `None`
and `dict(zip(columns, None))` raises `TypeError` — and never with the 404
that the router branch `data is None` (and the repository test
`test_get_tagihan_by_id_not_found`) would give. -/
theorem tagihan_missing_row_yields_400 :
    get_tagihan_by_id (unarySqids.encode [77, 1, 2, 3]) ⟨Role.ADMIN, none⟩
        dbEmpty unarySqids
      = .error (400, "zip argument #2 must support iteration")
    ∧ ∀ e, get_tagihan_by_id (unarySqids.encode [77, 1, 2, 3]) ⟨Role.ADMIN, none⟩
        dbEmpty unarySqids
      ≠ .error (404, e) := by
  have hdec : SqidsManager.decode unarySqids (unarySqids.encode [77, 1, 2, 3])
      = some 77 := by
    rw [SqidsManager.decode, unarySqids_roundTrips [77, 1, 2, 3] (by simp)]
  have h400 : get_tagihan_by_id (unarySqids.encode [77, 1, 2, 3])
      ⟨Role.ADMIN, none⟩ dbEmpty unarySqids
      = .error (400, "zip argument #2 must support iteration") := by
    rw [get_tagihan_by_id, hdec]
    rfl
  refine ⟨h400, ?_⟩
  intro e he
  rw [h400] at he
  simp at he

end TagihanWifi
